import Mathlib

/-!
Verification of the artwork validation and DPI-normalization pipeline of
board-co-supply-builder (`src/utils/index.ts`: `validateArtwork` and its
`resizeAndChangeDPI` helper, plus the test-suite copy of the helper).

The TypeScript source is shallowly embedded:

* byte buffers are `List Nat`;
* the external decode/encode libraries (sharp, pdf-lib) are an explicit
  environment `Env` of pure functions `Buffer → Except String _`
  (a thrown exception is `Except.error`);
* JavaScript numbers are modelled by `ℚ` (sharp pixel counts by `ℤ`),
  `Math.round` by `jsRound` and `Math.ceil` by `jsCeil`;
* template-literal suggestion strings are modelled by the inductive
  `Suggestion`, one constructor per template in the source, carrying the
  interpolated values (fully static lines are kept verbatim as
  `Suggestion.text`).

Division of rationals by zero is `0` in Lean while JavaScript produces
`Infinity`; every theorem below that touches such a division carries a
positivity hypothesis that keeps it inside the faithful domain.
-/

set_option autoImplicit false

/-- A Node.js `Buffer`: a sequence of bytes.  `Buffer.equals` is plain
equality of the byte lists. -/
abbrev Buffer := List Nat

/-- The metadata object produced by `sharp(buffer).metadata()`: `width`,
`height`, `density` and `format` may each be absent. -/
structure Meta where
  width : Option Int
  height : Option Int
  density : Option ℚ
  format : Option String
deriving DecidableEq

/-- A page of a PDF document as reported by pdf-lib `page.getSize()`:
width and height in points. -/
structure PdfPage where
  width : ℚ
  height : ℚ
deriving DecidableEq

/-- The uploaded `File`: declared MIME type, filename, byte content. -/
structure UploadFile where
  type : String
  name : String
  buffer : Buffer
deriving DecidableEq

/-- The external decoding libraries, as pure functions.  `meta` is
`sharp(buf).metadata()`; `resizeBuf buf w h d` is
`sharp(buf).resize(w, h).withMetadata(density d).toBuffer()`; `pdfLoad` is
`PDFDocument.load(buf)` followed by `getPages()`.  An exception thrown by
the library is an `Except.error` carrying its message. -/
structure Env where
  meta : Buffer → Except String Meta
  resizeBuf : Buffer → Int → Int → ℚ → Except String Buffer
  pdfLoad : Buffer → Except String (List PdfPage)

/-- JavaScript `Math.round`: round half toward positive infinity,
`⌊x + 1/2⌋`.  Written with integer floor-division so that it evaluates
by kernel reduction; `jsRound_eq` proves it is exactly `⌊x + 1/2⌋`. -/
def jsRound (x : ℚ) : Int := (2 * x.num + x.den) / (2 * (x.den : Int))

/-- JavaScript `Math.ceil`, written computably; `jsCeil_eq` proves it is
exactly `⌈x⌉`. -/
def jsCeil (x : ℚ) : Int := -((-x).num / ((-x).den : Int))

theorem jsRound_eq (x : ℚ) : jsRound x = ⌊x + 1 / 2⌋ := by
  have hden : ((x.den : ℚ)) ≠ 0 := by
    exact_mod_cast x.den_pos.ne'
  have hx : x + 1 / 2 = ((2 * x.num + (x.den : Int) : Int) : ℚ) / (((2 * x.den : ℕ)) : ℚ) := by
    conv_lhs => rw [← Rat.num_div_den x]
    push_cast
    field_simp
    ring
  rw [hx, Rat.floor_intCast_div_natCast, jsRound]
  push_cast
  ring_nf

theorem jsCeil_eq (x : ℚ) : jsCeil x = ⌈x⌉ := by
  rw [jsCeil, ← Rat.floor_def, Int.floor_neg, neg_neg]

/-- `REQUIRED_WIDTH` (px). -/
def REQUIRED_WIDTH : Int := 1200

/-- `REQUIRED_HEIGHT` (px). -/
def REQUIRED_HEIGHT : Int := 1050

/-- `REQUIRED_RESOLUTION` (ppi). -/
def REQUIRED_RESOLUTION : ℚ := 300

/-- The `resizeAndChangeDPI` helper bundled with `validateArtwork` in
`src/utils/index.ts` (the copy `validateArtwork` actually calls).  Its
type is `Promise<Buffer>`: on a caught error or on zero/unreadable
dimensions it returns the *input* buffer. -/
def resizeAndChangeDPI (env : Env) (fileBuffer : Buffer) : Buffer :=
  match env.meta fileBuffer with
  | .error _ => fileBuffer
  | .ok metadata =>
    let currentDPI : ℚ := metadata.density.getD 96
    let imageWidth : Int := metadata.width.getD 0
    let imageHeight : Int := metadata.height.getD 0
    if 300 ≤ currentDPI then
      fileBuffer
    else if imageWidth = 0 ∨ imageHeight = 0 then
      fileBuffer
    else
      let scale : ℚ := 300 / currentDPI
      let newWidth : Int := jsRound (imageWidth * scale)
      let newHeight : Int := jsRound (imageHeight * scale)
      match env.resizeBuf fileBuffer newWidth newHeight 300 with
      | .ok b => b
      | .error _ => fileBuffer

/-- The copy of `resizeAndChangeDPI` in the repository's test files
(`dpi-optimization-summary.test.ts` top, `dpi-processing.test.ts`, the
real-image test) and in the design document: type
`Promise<Buffer | undefined>`, returning `undefined` (`none`) on a caught
error and on zero/unreadable dimensions. -/
def resizeAndChangeDPICopy (env : Env) (fileBuffer : Buffer) : Option Buffer :=
  match env.meta fileBuffer with
  | .error _ => none
  | .ok metadata =>
    let currentDPI : ℚ := metadata.density.getD 96
    let imageWidth : Int := metadata.width.getD 0
    let imageHeight : Int := metadata.height.getD 0
    if 300 ≤ currentDPI then
      some fileBuffer
    else if imageWidth = 0 ∨ imageHeight = 0 then
      none
    else
      let scale : ℚ := 300 / currentDPI
      let newWidth : Int := jsRound (imageWidth * scale)
      let newHeight : Int := jsRound (imageHeight * scale)
      match env.resizeBuf fileBuffer newWidth newHeight 300 with
      | .ok b => some b
      | .error _ => none

/-- ASCII model of JavaScript `String.prototype.toLowerCase`. -/
def strToLower (s : String) : String := ⟨s.data.map Char.toLower⟩

/-- ASCII model of JavaScript `String.prototype.toUpperCase`. -/
def strToUpper (s : String) : String := ⟨s.data.map Char.toUpper⟩

/-- JavaScript `String.prototype.endsWith`. -/
def strEndsWith (s suffix : String) : Bool :=
  s.data.drop (s.data.length - suffix.data.length) == suffix.data

/-- JavaScript `String.prototype.startsWith`. -/
def strStartsWith (s p : String) : Bool :=
  s.data.take p.data.length == p.data

/-- JavaScript `String.prototype.replace` with a plain-string pattern
(replaces only the first occurrence; in `validateArtwork` it is used to
strip a leading `image/`, so stripping it as a leading piece is exact for
every `image/...` MIME type and the identity otherwise). -/
def stripImageSlash (s : String) : String :=
  if strStartsWith s "image/" then ⟨s.data.drop 6⟩ else s

/-- `name.split(".")` on the character list (JavaScript `split` always
returns at least one piece). -/
def splitDot : List Char → List Char → List (List Char)
  | [], acc => [acc.reverse]
  | c :: rest, acc =>
    if c = '.' then acc.reverse :: splitDot rest []
    else splitDot rest (c :: acc)

/-- `file.name.split(".").pop()`: the final filename piece. -/
def lastPiece (s : String) : String :=
  ⟨(splitDot s.data []).getLastD []⟩

/-- The suggestion strings assembled by `validateArtwork`, one
constructor per template literal of the source, carrying the interpolated
values; fully static lines are `Suggestion.text` with the source text. -/
inductive Suggestion where
  /-- any suggestion line with no interpolated value, carried verbatim -/
  | text (s : String)
  /-- `Your artwork is too small. Current size: WxHpx` (document and PSD paths) -/
  | artworkTooSmall (w h : Int)
  /-- `Your image is too small. Current size: WxHpx` (common-raster path) -/
  | imageTooSmall (w h : Int)
  /-- `Try scaling your artwork by P% to meet the minimum size requirement.` -/
  | scaleArtworkBy (pct : Int)
  /-- `Try increasing the canvas size by P%` -/
  | increaseCanvasBy (pct : Int)
  /-- `Try resizing your image to WxHpx to meet the minimum requirements.` -/
  | resizeImageTo (w h : Int)
  /-- `Current resolution: D DPI` with `D` rendered as `unknown` when the
  metadata has no density (the `metadata.density || "unknown"` template) -/
  | currentResolutionOpt (d : Option ℚ)
  /-- `Current size: WxHpx` on a valid result -/
  | currentSize (w h : Int)
  /-- `Current resolution: D DPI` on a valid result (the PSD template
  interpolates `metadata.density` directly, so the value stays optional) -/
  | currentResolutionLine (d : Option ℚ)
  /-- `DPI was automatically updated from A to B` -/
  | dpiUpdated (fromDPI : ℚ) (toDPI : Option ℚ)
  /-- the raw error message folded into the common-raster catch result -/
  | errMsg (s : String)
deriving DecidableEq

/-- The replacement `File` built around a processed buffer. -/
structure PFile where
  name : String
  type : String
  content : Buffer
deriving DecidableEq

/-- The `details` record of a `ValidationResult`. -/
structure Details where
  currentWidth : Option Int := none
  currentHeight : Option Int := none
  currentResolution : Option ℚ := none
  requiredWidth : Int := REQUIRED_WIDTH
  requiredHeight : Int := REQUIRED_HEIGHT
  requiredResolution : ℚ := REQUIRED_RESOLUTION
  fileType : String
  suggestions : List Suggestion
deriving DecidableEq

/-- The result type of `validateArtwork`. -/
structure ValidationResult where
  valid : Bool
  message : String
  processedFile : Option PFile := none
  details : Option Details := none
deriving DecidableEq

/-- The `acceptedTypes` allow-list of `validateArtwork`. -/
def acceptedTypes : List String :=
  ["application/postscript", "image/vnd.adobe.photoshop", "application/pdf",
   "application/illustrator", "image/jpeg", "image/png", "image/webp", "image/tiff"]

/-- The `imageExtensions` allow-list. -/
def imageExtensions : List String := [".jpg", ".jpeg", ".png", ".webp", ".tiff", ".tif"]

/-- `isAIFile`: a PostScript-typed file whose name ends in `.ai`. -/
def isAIFile (ty nm : String) : Bool :=
  ty == "application/postscript" && strEndsWith (strToLower nm) ".ai"

/-- `hasImageExtension` (an empty filename is falsy in the source's
`file.name ? ... : false`). -/
def hasImageExtension (nm : String) : Bool :=
  nm != "" && imageExtensions.any (fun ext => strEndsWith (strToLower nm) ext)

/-- `isImageFile`: generic `image/*` type (PSD excluded) or a raster
filename extension. -/
def isImageFile (ty nm : String) : Bool :=
  (strStartsWith ty "image/" && ty != "image/vnd.adobe.photoshop") || hasImageExtension nm

/-- The five handling strategies of `validateArtwork`'s dispatch. -/
inductive Route where
  /-- PDF / AI / illustrator: the pdf-lib path -/
  | document
  /-- PSD: metadata-only legacy-raster path -/
  | legacyRaster
  /-- JPEG/PNG/WebP/TIFF: the sharp + normalization path -/
  | commonRaster
  /-- fails the `acceptedTypes` gate: `Invalid file format.` -/
  | rejected
  /-- passes the gate but matches no handler: `Unsupported file format.` -/
  | unsupported
deriving DecidableEq

/-- The classifier: the source's accepted-type gate followed by its
`if/else if` dispatch, as a pure function of media type and filename. -/
def classify (ty nm : String) : Route :=
  if ¬ (ty ∈ acceptedTypes) ∧ ¬ (isAIFile ty nm = true) ∧ ¬ (hasImageExtension nm = true) then
    .rejected
  else if isAIFile ty nm ∨ ty = "application/illustrator" ∨ ty = "application/pdf" then
    .document
  else if ty = "image/vnd.adobe.photoshop" then
    .legacyRaster
  else if isImageFile ty nm then
    .commonRaster
  else
    .unsupported

/-- The PDF/AI display label: `isAIFile ? "AI" : file.type`. -/
def documentLabel (file : UploadFile) : String :=
  if isAIFile file.type file.name then "AI" else file.type

/-- The PDF/AI handler of `validateArtwork` (`pdf-lib` errors propagate to
the outer catch).  The source's extra `if (!page)` guard after the
`pages.length === 0` check is unreachable once the page list is nonempty,
so the list model needs no branch for it. -/
def documentBranch (env : Env) (file : UploadFile) : Except String ValidationResult :=
  match env.pdfLoad file.buffer with
  | .error e => .error e
  | .ok pages =>
    match pages with
    | [] =>
      .ok
        { valid := false
          message := "Document has no pages."
          details := some
            { fileType := documentLabel file
              suggestions := [.text "Your document appears to be empty.",
                .text "Please ensure your artwork is on the first page.",
                .text "Try re-saving your document and upload again."] } }
    | page :: _ =>
      let widthInPixels := jsRound (page.width / 72 * REQUIRED_RESOLUTION)
      let heightInPixels := jsRound (page.height / 72 * REQUIRED_RESOLUTION)
      if widthInPixels < REQUIRED_WIDTH ∨ heightInPixels < REQUIRED_HEIGHT then
        let widthScale := (REQUIRED_WIDTH : ℚ) / (widthInPixels : ℚ)
        let heightScale := (REQUIRED_HEIGHT : ℚ) / (heightInPixels : ℚ)
        let scale := max widthScale heightScale
        .ok
          { valid := false
            message := "Invalid dimensions."
            details := some
              { currentWidth := some widthInPixels
                currentHeight := some heightInPixels
                fileType := documentLabel file
                suggestions := [.artworkTooSmall widthInPixels heightInPixels,
                  .text "Required minimum size: 1200x1050px",
                  .scaleArtworkBy (jsRound (scale * 100)),
                  .text "For vector files (AI/PDF), you can safely scale the artwork without losing quality."] } }
      else
        .ok
          { valid := true
            message := "File is valid."
            details := some
              { currentWidth := some widthInPixels
                currentHeight := some heightInPixels
                fileType := documentLabel file
                suggestions := [.text "Your artwork meets all requirements!",
                  .currentSize widthInPixels heightInPixels] } }

/-- The PSD handler of `validateArtwork` (sharp metadata errors propagate
to the outer catch). -/
def psdBranch (env : Env) (file : UploadFile) : Except String ValidationResult :=
  match env.meta file.buffer with
  | .error e => .error e
  | .ok metadata =>
    if metadata.width.getD 0 = 0 ∨ metadata.height.getD 0 = 0 then
      .ok
        { valid := false
          message := "Could not read dimensions."
          details := some
            { fileType := "PSD"
              suggestions := [.text "Could not read the dimensions of your PSD file.",
                .text "Try re-saving your file and upload again.",
                .text "Ensure your PSD file is not corrupted."] } }
    else
      let w := metadata.width.getD 0
      let h := metadata.height.getD 0
      let sizeIssues : List Suggestion :=
        if w < REQUIRED_WIDTH ∨ h < REQUIRED_HEIGHT then
          let widthScale := (REQUIRED_WIDTH : ℚ) / (w : ℚ)
          let heightScale := (REQUIRED_HEIGHT : ℚ) / (h : ℚ)
          let scale := max widthScale heightScale
          [.artworkTooSmall w h,
           .text "Required minimum size: 1200x1050px",
           .increaseCanvasBy (jsRound (scale * 100))]
        else []
      let resIssues : List Suggestion :=
        if metadata.density ≠ some REQUIRED_RESOLUTION then
          [.currentResolutionOpt metadata.density,
           .text "Required resolution: 300 DPI",
           .text "In Photoshop, go to Image > Image Size and set resolution to 300 DPI"]
        else []
      let issues := sizeIssues ++ resIssues
      if issues ≠ [] then
        .ok
          { valid := false
            message := "Invalid dimensions or resolution."
            details := some
              { currentWidth := metadata.width
                currentHeight := metadata.height
                currentResolution := metadata.density
                fileType := "PSD"
                suggestions := issues } }
      else
        .ok
          { valid := true
            message := "File is valid."
            details := some
              { currentWidth := metadata.width
                currentHeight := metadata.height
                currentResolution := metadata.density
                fileType := "PSD"
                suggestions := [.text "Your artwork meets all requirements!",
                  .currentSize w h,
                  .currentResolutionLine metadata.density] } }

/-- The display format string of the common-raster path. -/
def imageFileFormat (file : UploadFile) : String :=
  let ff := strToUpper (stripImageSlash file.type)
  if ff = "" ∨ ff = "UNKNOWN" then
    let extension := strToLower (lastPiece file.name)
    if extension = "" then ff else strToUpper extension
  else ff

/-- The display format string of the common-raster catch handler
(`type || extension || "UNKNOWN"`, chained on JavaScript falsiness). -/
def imageCatchFileType (file : UploadFile) : String :=
  let a := strToUpper (stripImageSlash file.type)
  if a ≠ "" then a
  else
    let b := strToUpper (lastPiece file.name)
    if b ≠ "" then b else "UNKNOWN"

/-- The body of the common-raster handler's inner `try`. -/
def imageBranchBody (env : Env) (file : UploadFile) : Except String ValidationResult :=
  let fileFormat := imageFileFormat file
  match env.meta file.buffer with
  | .error e => .error e
  | .ok originalMetadata =>
    let originalDPI : ℚ := originalMetadata.density.getD 96
    let processedBuffer := resizeAndChangeDPI env file.buffer
    let wasProcessed : Bool := processedBuffer != file.buffer
    let processedFile : Option PFile :=
      if wasProcessed then some ⟨"processed-artwork.jpg", "image/jpeg", processedBuffer⟩
      else none
    match env.meta processedBuffer with
    | .error e => .error e
    | .ok metadata =>
      if metadata.width.getD 0 = 0 ∨ metadata.height.getD 0 = 0 then
        .ok
          { valid := false
            message := "Could not read image dimensions."
            details := some
              { fileType := fileFormat
                suggestions := [.text "Could not read the dimensions of your image file.",
                  .text "Try re-saving your file in a different format and upload again.",
                  .text "Ensure your image file is not corrupted."] } }
      else
        let w := metadata.width.getD 0
        let h := metadata.height.getD 0
        let sizeIssues : List Suggestion :=
          if w < REQUIRED_WIDTH ∨ h < REQUIRED_HEIGHT then
            let widthScale := (REQUIRED_WIDTH : ℚ) / (w : ℚ)
            let heightScale := (REQUIRED_HEIGHT : ℚ) / (h : ℚ)
            let scale := max widthScale heightScale
            [.imageTooSmall w h,
             .text "Required minimum size: 1200x1050px",
             .resizeImageTo (jsCeil ((w : ℚ) * scale)) (jsCeil ((h : ℚ) * scale))]
          else []
        let resIssues : List Suggestion :=
          match metadata.density with
          | none => []
          | some d =>
            if d ≠ 0 ∧ d < REQUIRED_RESOLUTION then
              [.currentResolutionOpt (some d),
               .text "Required resolution: 300 DPI",
               .text "Consider using a higher resolution image or resample your image in an editing program."]
            else []
        let issues := sizeIssues ++ resIssues
        if issues ≠ [] then
          .ok
            { valid := false
              message := "Invalid dimensions or resolution."
              processedFile := processedFile
              details := some
                { currentWidth := metadata.width
                  currentHeight := metadata.height
                  currentResolution := metadata.density
                  fileType := fileFormat
                  suggestions := issues } }
        else
          .ok
            { valid := true
              message := "File is valid."
              processedFile := processedFile
              details := some
                { currentWidth := metadata.width
                  currentHeight := metadata.height
                  currentResolution := metadata.density
                  fileType := fileFormat
                  suggestions :=
                    [.text "Your artwork meets all requirements!", .currentSize w h]
                    ++ (match metadata.density with
                        | some d => if d ≠ 0 then [.currentResolutionLine (some d)] else []
                        | none => [])
                    ++ (if wasProcessed then [.dpiUpdated originalDPI metadata.density] else []) } }

/-- The common-raster handler: the inner `try/catch` around
`imageBranchBody`, converting any thrown error into the
`Error processing image file.` result. -/
def imageBranch (env : Env) (file : UploadFile) : ValidationResult :=
  match imageBranchBody env file with
  | .ok r => r
  | .error e =>
    { valid := false
      message := "Error processing image file."
      details := some
        { fileType := imageCatchFileType file
          suggestions := [.errMsg e,
            .text "There was an error processing your image file.",
            .text "The file may be corrupted or in an unsupported format.",
            .text "Try re-saving your file in a different format like JPG or PNG."] } }

/-- The `Invalid file format.` result for inputs failing the
accepted-types gate. -/
def invalidFormatResult (file : UploadFile) : ValidationResult :=
  { valid := false
    message := "Invalid file format."
    details := some
      { fileType := if file.type = "" then "unknown" else file.type
        suggestions := [.text "Please provide your artwork in AI, PSD, PDF, or common image formats (JPG, PNG, etc.).",
          .text "If you have an Adobe Illustrator file, save it as .ai or PDF.",
          .text "For Photoshop files, save as .psd format."] } }

/-- The `Unsupported file format.` fall-through result for accepted types
matching no handler branch. -/
def unsupportedFormatResult (file : UploadFile) : ValidationResult :=
  { valid := false
    message := "Unsupported file format."
    details := some
      { fileType := if file.type = "" then "unknown" else file.type
        suggestions := [.text "Please provide your artwork in AI, PSD, PDF, or common image formats (JPG, PNG, etc.).",
          .text "If you have an Adobe Illustrator file, save it as .ai or PDF.",
          .text "For Photoshop files, save as .psd format."] } }

/-- The outer-catch result of `validateArtwork`. -/
def errorProcessingFile (file : UploadFile) : ValidationResult :=
  { valid := false
    message := "Error processing file."
    details := some
      { fileType := if file.type = "" then "unknown" else file.type
        suggestions := [.text "An error occurred while processing your file.",
          .text "Please ensure your file is not corrupted.",
          .text "Try re-saving your file and upload again."] } }

/-- The body of `validateArtwork`'s outer `try`: the accepted-types gate
and `if/else if` dispatch (restructured, condition for condition, through
`classify`). -/
def validateArtworkBody (env : Env) (file : UploadFile) : Except String ValidationResult :=
  match classify file.type file.name with
  | .rejected => .ok (invalidFormatResult file)
  | .document => documentBranch env file
  | .legacyRaster => psdBranch env file
  | .commonRaster => .ok (imageBranch env file)
  | .unsupported => .ok (unsupportedFormatResult file)

/-- `validateArtwork`: the dispatch wrapped in the outer `try/catch`,
converting any escaped error into the `Error processing file.` result. -/
def validateArtwork (env : Env) (file : UploadFile) : ValidationResult :=
  match validateArtworkBody env file with
  | .ok r => r
  | .error _ => errorProcessingFile file

/-! ### Concrete environments used by the witnesses -/

/-- A sharp/pdf-lib stand-in on which every decode fails (a corrupt or
empty buffer). -/
def corruptEnv : Env where
  meta := fun _ => .error "Input buffer contains unsupported image format"
  resizeBuf := fun _ _ _ _ => .error "Input buffer contains unsupported image format"
  pdfLoad := fun _ => .error "Failed to parse PDF document"

/-- A stand-in whose metadata reports zero width (unreadable dimensions)
at sub-300 density. -/
def zeroDimEnv : Env where
  meta := fun _ => .ok ⟨some 0, some 100, some 72, some "png"⟩
  resizeBuf := fun _ _ _ _ => .error "resize failed"
  pdfLoad := fun _ => .error "Failed to parse PDF document"

/-- A stand-in for a 400x300 PNG tagged 350 DPI (already compliant). -/
def compliantEnv : Env where
  meta := fun _ => .ok ⟨some 400, some 300, some 350, some "png"⟩
  resizeBuf := fun _ _ _ _ => .error "resize failed"
  pdfLoad := fun _ => .error "Failed to parse PDF document"

/-- A stand-in for a 100x100 PNG tagged 72 DPI whose resize yields the
buffer `[9]`, re-read as 1600x1400 at 300 DPI. -/
def lowDpiEnv : Env where
  meta := fun b =>
    if b = [9] then .ok ⟨some 1600, some 1400, some 300, some "png"⟩
    else if b = [1] then .ok ⟨some 100, some 100, some 72, some "png"⟩
    else .error "unsupported image format"
  resizeBuf := fun _ _ _ _ => .ok [9]
  pdfLoad := fun _ => .error "not a pdf"

/-- A stand-in for a 100x100 PNG tagged 72 DPI whose resize encodes the
requested dimensions into the output buffer and whose metadata read of
such a buffer reports them back at 300 DPI (the sharp contract). -/
def echoEnv : Env where
  meta := fun b =>
    match b with
    | [x, y] => .ok ⟨some (x : Int), some (y : Int), some 300, some "png"⟩
    | [_] => .ok ⟨some 100, some 100, some 72, some "png"⟩
    | _ => .error "unsupported image format"
  resizeBuf := fun _ w h _ => .ok [w.toNat, h.toNat]
  pdfLoad := fun _ => .error "not a pdf"

/-- A stand-in for a 2048x1536 PSD tagged 96 DPI. -/
def psd96Env : Env where
  meta := fun _ => .ok ⟨some 2048, some 1536, some 96, some "psd"⟩
  resizeBuf := fun _ _ _ _ => .error "resize failed"
  pdfLoad := fun _ => .error "not a pdf"

/-- A stand-in for a PDF whose single page measures 864x756 points
(12x10.5 inches). -/
def pdfEnv : Env where
  meta := fun _ => .error "not an image"
  resizeBuf := fun _ _ _ _ => .error "resize failed"
  pdfLoad := fun _ => .ok [⟨864, 756⟩]

/-! ### C7: classifier routing -/

/-- C7: the classifier is a pure function of declared media type and
filename, and routes `application/pdf` to the document path,
PostScript-typed `.ai` files to the document path, Photoshop files to the
legacy-raster path, PNG to the common-raster path, and `text/plain` (with
no raster extension) to rejection. -/
theorem classifier_concrete_routes :
    classify "application/pdf" "artwork.pdf" = Route.document ∧
    classify "application/postscript" "x.ai" = Route.document ∧
    classify "image/vnd.adobe.photoshop" "art.psd" = Route.legacyRaster ∧
    classify "image/png" "art.png" = Route.commonRaster ∧
    classify "text/plain" "notes.txt" = Route.rejected := by
  decide

/-! ### C2: the normalizer is the identity on compliant input -/

/-- C2: whenever the metadata read reports a density of at least 300,
`resizeAndChangeDPI` returns the input buffer itself: no resize, no
re-encode, no metadata rewrite. -/
theorem normalizer_identity_on_compliant (env : Env) (buf : Buffer) (m : Meta) (R : ℚ)
    (hm : env.meta buf = .ok m) (hd : m.density = some R) (hR : 300 ≤ R) :
    resizeAndChangeDPI env buf = buf := by
  unfold resizeAndChangeDPI
  rw [hm]
  simp [hd, hR]

/-- Witness for `normalizer_identity_on_compliant`: a 400x300 PNG tagged
350 DPI comes back unchanged. -/
theorem normalizer_identity_on_compliant_witness :
    compliantEnv.meta [5] = .ok ⟨some 400, some 300, some 350, some "png"⟩ ∧
    (⟨some 400, some 300, some 350, some "png"⟩ : Meta).density = some 350 ∧
    (300 : ℚ) ≤ 350 ∧
    resizeAndChangeDPI compliantEnv [5] = [5] :=
  ⟨rfl, rfl, by decide,
    normalizer_identity_on_compliant compliantEnv [5] _ 350 rfl rfl (by decide)⟩

/-! ### C4: failure behavior of the normalizer -/

/-- C4 (divergence): on a corrupt buffer (metadata read throws) and on a
zero-width buffer, the `resizeAndChangeDPI` copy that `validateArtwork`
calls returns the *input buffer* — its return type `Promise<Buffer>`
cannot even express a "no value" sentinel — while the copy kept in the
repository's test files and specified in the DPI-optimization design
document (`Promise<Buffer | undefined>`) returns the `undefined`
sentinel as the claim states. -/
theorem normalizer_failure_returns_input :
    resizeAndChangeDPI corruptEnv [1, 2, 3] = [1, 2, 3] ∧
    resizeAndChangeDPICopy corruptEnv [1, 2, 3] = none ∧
    resizeAndChangeDPI zeroDimEnv [4] = [4] ∧
    resizeAndChangeDPICopy zeroDimEnv [4] = none := by
  decide

/-! ### C10: PostScript without `.ai` falls through to `Unsupported file format.` -/

/-- C10: `application/postscript` passes the accepted-types gate, but
without a `.ai` suffix (and with no raster extension) it matches no
handler branch, so `validateArtwork` returns the fall-through
`Unsupported file format.` result — distinct from the
`Invalid file format.` message used for types outside the allow-list. -/
theorem postscript_fallthrough_unsupported (env : Env) (file : UploadFile)
    (hty : file.type = "application/postscript")
    (hai : strEndsWith (strToLower file.name) ".ai" = false)
    (hext : hasImageExtension file.name = false) :
    validateArtwork env file = unsupportedFormatResult file ∧
    (validateArtwork env file).valid = false ∧
    (validateArtwork env file).message = "Unsupported file format." ∧
    (validateArtwork env file).message ≠ "Invalid file format." := by
  have hc : classify file.type file.name = Route.unsupported := by
    rw [hty]
    have h3 : strStartsWith "application/postscript" "image/" = false := by decide
    simp [classify, isAIFile, isImageFile, acceptedTypes, hai, hext, h3]
  have hv : validateArtwork env file = unsupportedFormatResult file := by
    unfold validateArtwork validateArtworkBody
    rw [hc]
  refine ⟨hv, ?_, ?_, ?_⟩ <;> rw [hv] <;> simp [unsupportedFormatResult]

/-- Witness for `postscript_fallthrough_unsupported`: a `.eps`-named
PostScript file on any environment. -/
theorem postscript_fallthrough_unsupported_witness :
    strEndsWith (strToLower "file.eps") ".ai" = false ∧
    hasImageExtension "file.eps" = false ∧
    (validateArtwork corruptEnv ⟨"application/postscript", "file.eps", [0]⟩).message
      = "Unsupported file format." :=
  ⟨by decide, by decide,
    (postscript_fallthrough_unsupported corruptEnv
      ⟨"application/postscript", "file.eps", [0]⟩ rfl (by decide) (by decide)).2.2.1⟩

/-! ### C3: scaling behavior of the normalizer on low-DPI input -/

/-- C3: on readable, positive dimensions `W x H` and effective density
`R < 300` (the declared density, or 96 when absent), the normalizer asks
the encoder for exactly `round(W * 300/R) x round(H * 300/R)` at density
300 and returns the resulting new buffer.  The two `hsucc`/`hspec`
hypotheses are the sharp resize contract: the resize call succeeds and
its output's metadata reports the requested geometry (and the input's
format). -/
theorem normalizer_scales_low_dpi (env : Env) (buf : Buffer) (m : Meta)
    (W H : Int) (R : ℚ)
    (hm : env.meta buf = .ok m)
    (hW : m.width = some W) (hH : m.height = some H)
    (hW0 : 0 < W) (hH0 : 0 < H)
    (hR : m.density.getD 96 = R) (hR0 : 0 < R) (hR300 : R < 300)
    (hsucc : ∀ w h : Int, ∃ b, env.resizeBuf buf w h 300 = .ok b)
    (hspec : ∀ w h : Int, ∀ b : Buffer, 0 ≤ w → 0 ≤ h →
      env.resizeBuf buf w h 300 = .ok b →
      env.meta b = .ok ⟨some w, some h, some 300, m.format⟩) :
    ∃ b, resizeAndChangeDPI env buf = b ∧ b ≠ buf ∧
      env.meta b = .ok ⟨some (jsRound ((W : ℚ) * (300 / R))),
        some (jsRound ((H : ℚ) * (300 / R))), some 300, m.format⟩ := by
  obtain ⟨b, hb⟩ := hsucc (jsRound ((W : ℚ) * (300 / R))) (jsRound ((H : ℚ) * (300 / R)))
  have hscale : (0 : ℚ) < 300 / R := by positivity
  have hWpos : (0 : ℚ) < (W : ℚ) * (300 / R) := by
    have : (0 : ℚ) < (W : ℚ) := by exact_mod_cast hW0
    positivity
  have hHpos : (0 : ℚ) < (H : ℚ) * (300 / R) := by
    have : (0 : ℚ) < (H : ℚ) := by exact_mod_cast hH0
    positivity
  have hjW : 0 ≤ jsRound ((W : ℚ) * (300 / R)) := by
    rw [jsRound_eq, Int.le_floor]
    push_cast
    linarith
  have hjH : 0 ≤ jsRound ((H : ℚ) * (300 / R)) := by
    rw [jsRound_eq, Int.le_floor]
    push_cast
    linarith
  have hmb : env.meta b = .ok ⟨some (jsRound ((W : ℚ) * (300 / R))),
      some (jsRound ((H : ℚ) * (300 / R))), some 300, m.format⟩ :=
    hspec _ _ b hjW hjH hb
  refine ⟨b, ?_, ?_, hmb⟩
  · unfold resizeAndChangeDPI
    have h1 : ¬ (300 ≤ m.density.getD 96) := by rw [hR]; exact not_le.mpr hR300
    have h2 : ¬ (m.width.getD 0 = 0 ∨ m.height.getD 0 = 0) := by
      rw [hW, hH]
      simp only [Option.getD_some]
      push_neg
      exact ⟨hW0.ne', hH0.ne'⟩
    simp only [hm]
    rw [if_neg h1, if_neg h2, hW, hH, hR]
    simp only [Option.getD_some]
    simp only [hb]
  · intro hbuf
    rw [hbuf, hm] at hmb
    have hd : m.density = some 300 := by
      have := congrArg (fun r => match r with | Except.ok mm => mm.density | _ => none) hmb
      simpa using this
    rw [hd] at hR
    simp only [Option.getD_some] at hR
    rw [← hR] at hR300
    exact lt_irrefl _ hR300

/-- Witness for `normalizer_scales_low_dpi`: a 100x100 image tagged
72 DPI against the echoing resize contract. -/
theorem normalizer_scales_low_dpi_witness :
    ∃ b, resizeAndChangeDPI echoEnv [1] = b ∧ b ≠ [1] ∧
      echoEnv.meta b = .ok ⟨some (jsRound (((100 : Int) : ℚ) * (300 / 72))),
        some (jsRound (((100 : Int) : ℚ) * (300 / 72))), some 300, some "png"⟩ :=
  normalizer_scales_low_dpi echoEnv [1] ⟨some 100, some 100, some 72, some "png"⟩
    100 100 72 rfl rfl rfl (by decide) (by decide) (by decide) (by decide) (by decide)
    (fun w h => ⟨[w.toNat, h.toNat], rfl⟩)
    (by
      intro w h b hw hh hok
      have hb : b = [w.toNat, h.toNat] := by
        have := hok
        simp only [echoEnv] at this
        exact (Except.ok.injEq _ _).mp this.symm
      subst hb
      simp [echoEnv, Int.toNat_of_nonneg hw, Int.toNat_of_nonneg hh])

/-! ### C5: the PSD path demands exact 300 DPI -/

/-- C5: on a PSD with readable dimensions, `validateArtwork` is valid
exactly when width ≥ 1200, height ≥ 1050, and the density metadata equals
300 exactly; any other density — 96, absent, or even above 300 — yields
an invalid result carrying a resolution-issue suggestion. -/
theorem psd_exact_resolution_rule (env : Env) (file : UploadFile) (m : Meta) (w h : Int)
    (hty : file.type = "image/vnd.adobe.photoshop")
    (hm : env.meta file.buffer = .ok m)
    (hw : m.width = some w) (hh : m.height = some h)
    (hw0 : w ≠ 0) (hh0 : h ≠ 0) :
    ((validateArtwork env file).valid = true ↔
      (REQUIRED_WIDTH ≤ w ∧ REQUIRED_HEIGHT ≤ h ∧ m.density = some REQUIRED_RESOLUTION)) ∧
    (m.density ≠ some REQUIRED_RESOLUTION →
      (validateArtwork env file).valid = false ∧
      ∃ det, (validateArtwork env file).details = some det ∧
        Suggestion.currentResolutionOpt m.density ∈ det.suggestions) := by
  have hc : classify file.type file.name = Route.legacyRaster := by
    rw [hty]
    simp [classify, isAIFile, acceptedTypes]
  have hro : ¬ (m.width.getD 0 = 0 ∨ m.height.getD 0 = 0) := by
    rw [hw, hh]
    simp only [Option.getD_some]
    push_neg
    exact ⟨hw0, hh0⟩
  have hva : validateArtwork env file =
      (match psdBranch env file with
        | .ok r => r
        | .error _ => errorProcessingFile file) := by
    unfold validateArtwork validateArtworkBody
    rw [hc]
  rw [hva]
  unfold psdBranch
  simp only [hm]
  rw [if_neg hro]
  simp only [hw, hh, Option.getD_some, REQUIRED_WIDTH, REQUIRED_HEIGHT, REQUIRED_RESOLUTION]
  rcases Classical.em (w < 1200 ∨ h < 1050) with h1 | h1 <;>
    rcases Classical.em (m.density = some 300) with h2 | h2
  · refine ⟨?_, fun hne => absurd h2 hne⟩
    simp [h1, h2]
    omega
  · refine ⟨?_, fun _ => ⟨?_, ?_⟩⟩
    · simp [h1, h2]
    · simp [h1, h2]
    · simp [h1, h2]
  · refine ⟨?_, fun hne => absurd h2 hne⟩
    simp [h1, h2]
    omega
  · refine ⟨?_, fun _ => ⟨?_, ?_⟩⟩
    · simp [h1, h2]
    · simp [h1, h2]
    · simp [h1, h2]

/-- Witness for `psd_exact_resolution_rule`: a 2048x1536 PSD tagged
96 DPI has compliant pixel dimensions yet fails with a resolution-issue
suggestion. -/
theorem psd_exact_resolution_rule_witness :
    ((validateArtwork psd96Env ⟨"image/vnd.adobe.photoshop", "art.psd", [2]⟩).valid = true ↔
      (REQUIRED_WIDTH ≤ 2048 ∧ REQUIRED_HEIGHT ≤ 1536 ∧
        (⟨some 2048, some 1536, some 96, some "psd"⟩ : Meta).density
          = some REQUIRED_RESOLUTION)) ∧
    ((validateArtwork psd96Env ⟨"image/vnd.adobe.photoshop", "art.psd", [2]⟩).valid = false ∧
      ∃ det, (validateArtwork psd96Env ⟨"image/vnd.adobe.photoshop", "art.psd", [2]⟩).details
          = some det ∧
        Suggestion.currentResolutionOpt
          (⟨some 2048, some 1536, some 96, some "psd"⟩ : Meta).density ∈ det.suggestions) :=
  have h := psd_exact_resolution_rule psd96Env ⟨"image/vnd.adobe.photoshop", "art.psd", [2]⟩
    ⟨some 2048, some 1536, some 96, some "psd"⟩ 2048 1536 rfl rfl rfl rfl
    (by decide) (by decide)
  ⟨h.1, h.2 (by decide)⟩

/-! ### C6: the document path converts points at 300 ppi and checks 1200x1050 -/

/-- C6: for a PDF/AI file whose first page is `w x h` points, the pixel
equivalents are `round(w / 72 * 300)` and `round(h / 72 * 300)`; the
result is valid exactly when they reach 1200x1050, the measured pixel
sizes are echoed in the details, and when a dimension is short the
suggestions carry the uniform scale percentage
`round(max(1200/widthPx, 1050/heightPx) * 100)`. -/
theorem document_dimension_rule (env : Env) (file : UploadFile)
    (page : PdfPage) (rest : List PdfPage)
    (hclass : classify file.type file.name = Route.document)
    (hpdf : env.pdfLoad file.buffer = .ok (page :: rest)) :
    ((validateArtwork env file).valid = true ↔
      (REQUIRED_WIDTH ≤ jsRound (page.width / 72 * REQUIRED_RESOLUTION) ∧
       REQUIRED_HEIGHT ≤ jsRound (page.height / 72 * REQUIRED_RESOLUTION))) ∧
    (∃ det, (validateArtwork env file).details = some det ∧
      det.currentWidth = some (jsRound (page.width / 72 * REQUIRED_RESOLUTION)) ∧
      det.currentHeight = some (jsRound (page.height / 72 * REQUIRED_RESOLUTION))) ∧
    (¬ (REQUIRED_WIDTH ≤ jsRound (page.width / 72 * REQUIRED_RESOLUTION) ∧
        REQUIRED_HEIGHT ≤ jsRound (page.height / 72 * REQUIRED_RESOLUTION)) →
      ∃ det, (validateArtwork env file).details = some det ∧
        Suggestion.scaleArtworkBy (jsRound (max
          ((REQUIRED_WIDTH : ℚ) / (jsRound (page.width / 72 * REQUIRED_RESOLUTION) : ℚ))
          ((REQUIRED_HEIGHT : ℚ) / (jsRound (page.height / 72 * REQUIRED_RESOLUTION) : ℚ))
          * 100)) ∈ det.suggestions) := by
  have hva : validateArtwork env file =
      (match documentBranch env file with
        | .ok r => r
        | .error _ => errorProcessingFile file) := by
    unfold validateArtwork validateArtworkBody
    rw [hclass]
  rw [hva]
  unfold documentBranch
  simp only [hpdf]
  rcases Classical.em (jsRound (page.width / 72 * REQUIRED_RESOLUTION) < REQUIRED_WIDTH ∨
      jsRound (page.height / 72 * REQUIRED_RESOLUTION) < REQUIRED_HEIGHT) with h1 | h1
  · refine ⟨?_, ?_, ?_⟩
    · simp [h1]
      omega
    · simp [h1]
    · intro _
      simp [h1]
  · refine ⟨?_, ?_, ?_⟩
    · simp [h1]
      omega
    · simp [h1]
    · intro hcon
      exact absurd (show REQUIRED_WIDTH ≤ jsRound (page.width / 72 * REQUIRED_RESOLUTION) ∧
        REQUIRED_HEIGHT ≤ jsRound (page.height / 72 * REQUIRED_RESOLUTION) by omega) hcon

/-- Witness for `document_dimension_rule`: a 12x10.5 inch (864x756 point)
first page converts to exactly 3600x3150 pixels and validates. -/
theorem document_dimension_rule_witness :
    jsRound ((864 : ℚ) / 72 * REQUIRED_RESOLUTION) = 3600 ∧
    jsRound ((756 : ℚ) / 72 * REQUIRED_RESOLUTION) = 3150 ∧
    (validateArtwork pdfEnv ⟨"application/pdf", "art.pdf", [3]⟩).valid = true ∧
    (∃ det, (validateArtwork pdfEnv ⟨"application/pdf", "art.pdf", [3]⟩).details = some det ∧
      det.currentWidth = some (jsRound ((864 : ℚ) / 72 * REQUIRED_RESOLUTION)) ∧
      det.currentHeight = some (jsRound ((756 : ℚ) / 72 * REQUIRED_RESOLUTION))) := by
  have h := document_dimension_rule pdfEnv ⟨"application/pdf", "art.pdf", [3]⟩ ⟨864, 756⟩ []
    (by decide) rfl
  have hwv : jsRound ((864 : ℚ) / 72 * REQUIRED_RESOLUTION) = 3600 := by
    have he : (864 : ℚ) / 72 * REQUIRED_RESOLUTION = 3600 := by
      rw [REQUIRED_RESOLUTION]; norm_num
    rw [he, jsRound]
    simp only [Rat.num_ofNat, Rat.den_ofNat]
    decide
  have hhv : jsRound ((756 : ℚ) / 72 * REQUIRED_RESOLUTION) = 3150 := by
    have he : (756 : ℚ) / 72 * REQUIRED_RESOLUTION = 3150 := by
      rw [REQUIRED_RESOLUTION]; norm_num
    rw [he, jsRound]
    simp only [Rat.num_ofNat, Rat.den_ofNat]
    decide
  refine ⟨hwv, hhv, ?_, h.2.1⟩
  exact h.1.mpr ⟨by rw [hwv]; decide, by rw [hhv]; decide⟩

/-! ### Helper lemmas about `processedFile` -/

theorem documentBranch_no_processedFile (env : Env) (file : UploadFile)
    (r : ValidationResult) (h : documentBranch env file = .ok r) :
    r.processedFile = none := by
  unfold documentBranch at h
  dsimp only at h
  repeat' split at h
  all_goals
    first
      | exact Except.noConfusion h
      | (simp only [Except.ok.injEq] at h; subst h; rfl)

theorem psdBranch_no_processedFile (env : Env) (file : UploadFile)
    (r : ValidationResult) (h : psdBranch env file = .ok r) :
    r.processedFile = none := by
  unfold psdBranch at h
  dsimp only at h
  repeat' split at h
  all_goals
    first
      | exact Except.noConfusion h
      | (simp only [Except.ok.injEq] at h; subst h; rfl)

theorem resizeAndChangeDPI_changed_meta (env : Env) (buf : Buffer)
    (h : resizeAndChangeDPI env buf ≠ buf) : ∃ m, env.meta buf = .ok m := by
  unfold resizeAndChangeDPI at h
  cases hm : env.meta buf with
  | error e => rw [hm] at h; simp at h
  | ok m => exact ⟨m, rfl⟩

theorem imageBranchBody_ok_processedFile (env : Env) (file : UploadFile)
    (r : ValidationResult) (heq : imageBranchBody env file = .ok r) :
    r.processedFile = none ∨
    (r.processedFile
        = some ⟨"processed-artwork.jpg", "image/jpeg", resizeAndChangeDPI env file.buffer⟩ ∧
      resizeAndChangeDPI env file.buffer ≠ file.buffer) := by
  unfold imageBranchBody at heq
  dsimp only at heq
  by_cases hch : resizeAndChangeDPI env file.buffer = file.buffer
  · left
    have hb0 : (resizeAndChangeDPI env file.buffer != file.buffer) = false := by
      simp [hch]
    simp only [hb0, Bool.false_eq_true, if_false] at heq
    repeat' split at heq
    all_goals
      first
        | exact Except.noConfusion heq
        | (simp only [Except.ok.injEq] at heq; subst heq; rfl)
  · have hb : (resizeAndChangeDPI env file.buffer != file.buffer) = true := by
      simpa using hch
    simp only [hb, eq_self_iff_true, if_true] at heq
    repeat' split at heq
    all_goals
      first
        | exact Except.noConfusion heq
        | (simp only [Except.ok.injEq] at heq; subst heq; left; rfl)
        | (simp only [Except.ok.injEq] at heq; subst heq; right; exact ⟨rfl, hch⟩)

theorem imageBranch_processedFile_some (env : Env) (file : UploadFile) (pf : PFile)
    (h : (imageBranch env file).processedFile = some pf) :
    pf = ⟨"processed-artwork.jpg", "image/jpeg", resizeAndChangeDPI env file.buffer⟩ ∧
    resizeAndChangeDPI env file.buffer ≠ file.buffer := by
  unfold imageBranch at h
  split at h
  case h_2 e heq => simp at h
  case h_1 r heq =>
    rcases imageBranchBody_ok_processedFile env file r heq with hnone | ⟨hsome, hch⟩
    · rw [hnone] at h
      exact absurd h (by simp)
    · rw [hsome] at h
      simp only [Option.some.injEq] at h
      exact ⟨h.symm, hch⟩

theorem imageBranch_processedFile_of_changed (env : Env) (file : UploadFile)
    (hch : resizeAndChangeDPI env file.buffer ≠ file.buffer)
    (m2 : Meta) (hm2 : env.meta (resizeAndChangeDPI env file.buffer) = .ok m2)
    (hw : m2.width.getD 0 ≠ 0) (hh : m2.height.getD 0 ≠ 0) :
    (imageBranch env file).processedFile =
      some ⟨"processed-artwork.jpg", "image/jpeg", resizeAndChangeDPI env file.buffer⟩ := by
  obtain ⟨m1, hm1⟩ := resizeAndChangeDPI_changed_meta env file.buffer hch
  have hro : ¬ (m2.width.getD 0 = 0 ∨ m2.height.getD 0 = 0) := by
    push_neg
    exact ⟨hw, hh⟩
  have hb : (resizeAndChangeDPI env file.buffer != file.buffer) = true := by
    simpa using hch
  unfold imageBranch imageBranchBody
  simp only [hm1, hm2]
  rw [if_neg hro]
  simp only [hb, eq_self_iff_true, if_true]
  split
  case h_1 r heq =>
    repeat' split at heq
    all_goals (simp only [Except.ok.injEq] at heq; subst heq; rfl)
  case h_2 e heq =>
    repeat' split at heq
    all_goals exact Except.noConfusion heq

/-! ### C9: every `processedFile` is labeled `processed-artwork.jpg` / `image/jpeg` -/

/-- C9: whenever `validateArtwork` returns a `processedFile`, that file is
named `processed-artwork.jpg` with declared type `image/jpeg`, and its
content is the normalizer's output buffer — which sharp re-encodes in the
input's own format, not JPEG. -/
theorem processedFile_always_jpeg_label (env : Env) (file : UploadFile) (pf : PFile)
    (hpf : (validateArtwork env file).processedFile = some pf) :
    pf.name = "processed-artwork.jpg" ∧ pf.type = "image/jpeg" ∧
    pf.content = resizeAndChangeDPI env file.buffer := by
  unfold validateArtwork validateArtworkBody at hpf
  cases hc : classify file.type file.name <;> rw [hc] at hpf
  case document =>
    exfalso
    cases hd : documentBranch env file with
    | error e =>
      rw [hd] at hpf
      simp [errorProcessingFile] at hpf
    | ok r =>
      rw [hd] at hpf
      simp only at hpf
      rw [documentBranch_no_processedFile env file r hd] at hpf
      exact Option.noConfusion hpf
  case legacyRaster =>
    exfalso
    cases hd : psdBranch env file with
    | error e =>
      rw [hd] at hpf
      simp [errorProcessingFile] at hpf
    | ok r =>
      rw [hd] at hpf
      simp only at hpf
      rw [psdBranch_no_processedFile env file r hd] at hpf
      exact Option.noConfusion hpf
  case commonRaster =>
    simp only at hpf
    obtain ⟨hpf1, _⟩ := imageBranch_processedFile_some env file pf hpf
    rw [hpf1]
    exact ⟨rfl, rfl, rfl⟩
  case rejected =>
    exfalso
    simp [invalidFormatResult] at hpf
  case unsupported =>
    exfalso
    simp [unsupportedFormatResult] at hpf

/-- Witness for `processedFile_always_jpeg_label`: a low-DPI PNG is
rescaled; the replacement file is labeled `image/jpeg` although its
content's metadata still reports the PNG format. -/
theorem processedFile_always_jpeg_label_witness :
    ((validateArtwork lowDpiEnv ⟨"image/png", "art.png", [1]⟩).processedFile
        = some ⟨"processed-artwork.jpg", "image/jpeg", [9]⟩) ∧
    ((⟨"processed-artwork.jpg", "image/jpeg", [9]⟩ : PFile).name = "processed-artwork.jpg" ∧
      (⟨"processed-artwork.jpg", "image/jpeg", [9]⟩ : PFile).type = "image/jpeg" ∧
      (⟨"processed-artwork.jpg", "image/jpeg", [9]⟩ : PFile).content
        = resizeAndChangeDPI lowDpiEnv [1]) ∧
    (lowDpiEnv.meta [9] = .ok ⟨some 1600, some 1400, some 300, some "png"⟩) :=
  ⟨by decide,
    processedFile_always_jpeg_label lowDpiEnv ⟨"image/png", "art.png", [1]⟩
      ⟨"processed-artwork.jpg", "image/jpeg", [9]⟩ (by decide),
    rfl⟩

/-! ### C1: `processedFile` is present iff normalization altered the bytes -/

/-- C1: `processedFile` is set exactly when the input took the
common-raster path and the normalization step actually changed the byte
buffer; the document and PSD paths never set it.  The `hread` hypothesis
is the sharp contract that a buffer the normalizer just produced can be
read back with nonzero dimensions. -/
theorem processedFile_iff_buffer_changed (env : Env) (file : UploadFile)
    (hread : resizeAndChangeDPI env file.buffer ≠ file.buffer →
      ∃ m2, env.meta (resizeAndChangeDPI env file.buffer) = .ok m2 ∧
        m2.width.getD 0 ≠ 0 ∧ m2.height.getD 0 ≠ 0) :
    ((validateArtwork env file).processedFile ≠ none ↔
      (classify file.type file.name = Route.commonRaster ∧
        resizeAndChangeDPI env file.buffer ≠ file.buffer)) := by
  constructor
  · intro hne
    obtain ⟨pf, hpf⟩ := Option.ne_none_iff_exists'.mp hne
    unfold validateArtwork validateArtworkBody at hpf
    cases hc : classify file.type file.name <;> rw [hc] at hpf
    case document =>
      exfalso
      cases hd : documentBranch env file with
      | error e =>
        rw [hd] at hpf
        simp [errorProcessingFile] at hpf
      | ok r =>
        rw [hd] at hpf
        simp only at hpf
        rw [documentBranch_no_processedFile env file r hd] at hpf
        exact Option.noConfusion hpf
    case legacyRaster =>
      exfalso
      cases hd : psdBranch env file with
      | error e =>
        rw [hd] at hpf
        simp [errorProcessingFile] at hpf
      | ok r =>
        rw [hd] at hpf
        simp only at hpf
        rw [psdBranch_no_processedFile env file r hd] at hpf
        exact Option.noConfusion hpf
    case commonRaster =>
      simp only at hpf
      obtain ⟨_, hch⟩ := imageBranch_processedFile_some env file pf hpf
      exact ⟨rfl, hch⟩
    case rejected =>
      exfalso
      simp [invalidFormatResult] at hpf
    case unsupported =>
      exfalso
      simp [unsupportedFormatResult] at hpf
  · rintro ⟨hc, hch⟩
    obtain ⟨m2, hm2, hw2, hh2⟩ := hread hch
    have himg := imageBranch_processedFile_of_changed env file hch m2 hm2 hw2 hh2
    unfold validateArtwork validateArtworkBody
    rw [hc]
    simp only
    rw [himg]
    exact Option.noConfusion

/-- Witness for `processedFile_iff_buffer_changed`: the 72 DPI PNG whose
normalization produces a new buffer. -/
theorem processedFile_iff_buffer_changed_witness :
    ((validateArtwork lowDpiEnv ⟨"image/png", "art.png", [1]⟩).processedFile ≠ none ↔
      (classify "image/png" "art.png" = Route.commonRaster ∧
        resizeAndChangeDPI lowDpiEnv [1] ≠ [1])) ∧
    (validateArtwork lowDpiEnv ⟨"image/png", "art.png", [1]⟩).processedFile ≠ none :=
  ⟨processedFile_iff_buffer_changed lowDpiEnv ⟨"image/png", "art.png", [1]⟩
      (fun _ => ⟨⟨some 1600, some 1400, some 300, some "png"⟩, rfl, by decide, by decide⟩),
    by decide⟩

/-! ### C8: the outer catch converts every escaped error -/

/-- C8: `validateArtwork` is total — every call produces a
`ValidationResult` — and whenever its body raises an internal error, the
outer catch converts it into the `valid = false`,
`Error processing file.` result instead of letting it escape. -/
theorem validateArtwork_outer_catch (env : Env) (file : UploadFile) :
    (∃ r, validateArtworkBody env file = .ok r ∧ validateArtwork env file = r) ∨
    (∃ e, validateArtworkBody env file = .error e ∧
      validateArtwork env file = errorProcessingFile file ∧
      (validateArtwork env file).valid = false ∧
      (validateArtwork env file).message = "Error processing file.") := by
  cases hb : validateArtworkBody env file with
  | ok r =>
    left
    refine ⟨r, rfl, ?_⟩
    unfold validateArtwork
    rw [hb]
  | error e =>
    right
    refine ⟨e, rfl, ?_, ?_, ?_⟩ <;> (unfold validateArtwork; rw [hb]) <;> rfl

